import Mathlib

/-
  Verification development for the PeerVault Protocol Translation Engine and
  its HTTP test clients.

  The translation engine itself ships outside the test-client sources, so its
  data model and operations are modelled from the specification (sections 2-8
  of spec.md); definitions carrying a `Modelled from the spec:` doc comment are
  such models.  The Python test clients (`docs/api/translation/test_client.py`,
  `docs/api/mqtt/test_client.py`, `docs/examples/rest/basic/upload-file.py`)
  are embedded directly from their sources.
-/

namespace PeerVault

/-- Modelled from the spec: the fixed protocol identifier set
`{websocket, mqtt, sse, coap}` held by the Translation Registry (spec 4.2). -/
inductive Protocol
  | websocket
  | mqtt
  | sse
  | coap
deriving DecidableEq, Repr

/-- Modelled from the spec: the protocol-neutral `messageType` tag set
(spec 3: text|publish|data|request; spec 4.1 adds `binary` for WebSocket
opcode 2). -/
inductive MessageType
  | text
  | binary
  | publish
  | data
  | request
deriving DecidableEq, Repr

/-- Modelled from the spec: the error taxonomy of section 7. -/
inductive ErrorKind
  | MalformedInput
  | UnsupportedMapping
  | UnsupportedPair
  | PayloadTooLarge
deriving DecidableEq, Repr

/-- Modelled from the spec: metadata values are an open variant type
(string / integer / boolean suffice for every key the adapters use). -/
inductive MetaValue
  | s (v : String)
  | n (v : Nat)
  | b (v : Bool)
deriving DecidableEq, Repr

/-- A metadata mapping: string-keyed association list (spec 3). -/
abbrev Metadata := List (String × MetaValue)

/-- Look up a metadata key: the first entry with that key, if any. -/
def lookupMeta (md : Metadata) (k : String) : Option MetaValue :=
  match md with
  | [] => none
  | kv :: rest => if kv.1 = k then some kv.2 else lookupMeta rest k

/-- Modelled from the spec: the native message shape presented to the engine
(HTTP bodies of section 6: optional topic, optional payload, metadata). -/
structure NativeMessage where
  topic : Option String
  payload : Option String
  metadata : Metadata
deriving DecidableEq, Repr

/-- Modelled from the spec: the protocol name of each identifier, as it
appears in HTTP requests. -/
def protocolName : Protocol → String
  | .websocket => "websocket"
  | .mqtt => "mqtt"
  | .sse => "sse"
  | .coap => "coap"

/-- Modelled from the spec: parsing a protocol name from a request; an
unregistered name yields `none` (spec 7: unregistered protocol name is
`UnsupportedPair`). -/
def parseProtocol : String → Option Protocol
  | "websocket" => some .websocket
  | "mqtt" => some .mqtt
  | "sse" => some .sse
  | "coap" => some .coap
  | _ => none

/-- Modelled from the spec: the namespaced metadata keys each adapter
whitelists (spec 3 and 9: `mqtt_qos`, `coap_method`, `sse_event`,
`websocket_opcode`, etc.; unrecognized keys are dropped). -/
def protocolKeys : Protocol → List String
  | .websocket => ["websocket_opcode", "websocket_fin"]
  | .mqtt => ["mqtt_qos", "mqtt_retain"]
  | .sse => ["sse_event", "sse_id"]
  | .coap => ["coap_method", "coap_code", "coap_type"]

/-- Modelled from the spec: the fixed per-protocol `messageType` lookup used
by Decode (spec 4.1: WebSocket opcode 1 → text, opcode 2 → binary; MQTT
publish → publish; SSE → data; CoAP method → request). -/
def decodeType (p : Protocol) (md : Metadata) : MessageType :=
  match p with
  | .websocket =>
    match lookupMeta md "websocket_opcode" with
    | some (.n 2) => .binary
    | _ => .text
  | .mqtt => .publish
  | .sse => .data
  | .coap => .request

/-- The canonical form produced by a source adapter's Decode. -/
structure DecodedMessage where
  messageType : MessageType
  topic : String
  payload : String
  metadata : Metadata
deriving DecidableEq, Repr

/-- Modelled from the spec: source-adapter Decode (spec 4.1): fails with
`MalformedInput` when the required native fields (topic, payload) are
missing; sets `messageType` from the fixed lookup; keeps only the metadata
keys the adapter whitelists (spec 9). -/
def decode (p : Protocol) (nm : NativeMessage) : Except ErrorKind DecodedMessage :=
  match nm.topic, nm.payload with
  | some t, some pl =>
    .ok { messageType := decodeType p nm.metadata
          topic := t
          payload := pl
          metadata := nm.metadata.filter (fun kv => (protocolKeys p).contains kv.1) }
  | _, _ => .error .MalformedInput

/-- Modelled from the spec: the deterministic native-specific defaults each
target adapter derives for metadata absent from the canonical message
(spec 4.1: MQTT QoS=1 retain=false; CoAP method=POST type=CON; SSE
event="message"; WebSocket opcode=1 fin=true), under the namespaced key
convention of the data model (spec 3). -/
def encodeDefaults : Protocol → Metadata
  | .websocket => [("websocket_opcode", .n 1), ("websocket_fin", .b true)]
  | .mqtt => [("mqtt_qos", .n 1), ("mqtt_retain", .b false)]
  | .sse => [("sse_event", .s "message")]
  | .coap => [("coap_method", .s "POST"), ("coap_type", .s "CON")]

/-- Modelled from the spec: the metadata of the canonical form actually sent
to the target: keys the target adapter recognizes are kept, unrecognized
keys are dropped silently (spec 3), and defaults fill the absent recognized
fields (spec 4.1). -/
def encodeMeta (tgt : Protocol) (md : Metadata) : Metadata :=
  md.filter (fun kv => (protocolKeys tgt).contains kv.1)
    ++ (encodeDefaults tgt).filter (fun d => (lookupMeta md d.1).isNone)

/-- Modelled from the spec: the configured maximum payload size
(spec 3: default 64 KiB; oversize is rejected, not truncated). -/
def maxPayload : Nat := 65536

/-- Modelled from the spec: the CanonicalMessage envelope (spec 3). -/
structure CanonicalMessage where
  id : Nat
  sourceProtocol : Protocol
  targetProtocol : Protocol
  messageType : MessageType
  topic : String
  payload : String
  metadata : Metadata
  timestamp : Nat
deriving DecidableEq, Repr

/-- Modelled from the spec: TranslationOutcome (spec 3): `success`,
`resultMessage` present iff success, `errorKind` present iff failure. -/
structure TranslationOutcome where
  success : Bool
  resultMessage : Option CanonicalMessage
  errorKind : Option ErrorKind
deriving DecidableEq, Repr

/-- Modelled from the spec: the registry's registered protocol set; all four
adapters are registered at startup (spec 4.2 and 9). -/
def defaultRegistry : List Protocol := [.websocket, .mqtt, .sse, .coap]

/-- Modelled from the spec: the Translation Engine operation
`Translate(nativePayload, source, target)` (spec 4.3): validate the pair via
the Registry (same-protocol or unregistered fails fast with
`UnsupportedPair`), decode via the source adapter (`MalformedInput` on
missing required fields), reject oversize payloads (`PayloadTooLarge`),
encode via the target adapter (total, with an explicit fallback branch,
spec 4.1), and on success carry the canonical form actually sent to the
target.  `freshId` and `now` stand for the generated `id` and the
timestamp.  The function is total: no failure escapes the boundary. -/
def translate (reg : List Protocol) (src tgt : Protocol) (nm : NativeMessage)
    (freshId now : Nat) : TranslationOutcome :=
  if src = tgt ∨ ¬ src ∈ reg ∨ ¬ tgt ∈ reg then
    { success := false, resultMessage := none, errorKind := some .UnsupportedPair }
  else
    match decode src nm with
    | .error e => { success := false, resultMessage := none, errorKind := some e }
    | .ok d =>
      if maxPayload < d.payload.length then
        { success := false, resultMessage := none, errorKind := some .PayloadTooLarge }
      else
        { success := true
          resultMessage := some
            { id := freshId
              sourceProtocol := src
              targetProtocol := tgt
              messageType := d.messageType
              topic := d.topic
              payload := d.payload
              metadata := encodeMeta tgt d.metadata
              timestamp := now }
          errorKind := none }

/-- Modelled from the spec: per-pair counters of the AnalyticsSnapshot
(spec 3: attempts, successes, errors). -/
structure PairCounts where
  attempts : Nat
  successes : Nat
  errors : Nat
deriving DecidableEq, Repr

/-- Analytics are keyed by the requested (source, target) pair as named in
the request (spec 4.3: the outcome is associated with the requested pair
regardless of which stage failed). -/
abbrev PairKey := String × String

/-- Modelled from the spec: the Analytics Collector state (spec 3 and 4.4):
per-pair counters, global counters, error-kind frequency table, timing
aggregates kept as an incremental cumulative sum, and the process start
time; never reset. -/
structure Analytics where
  startTime : Nat
  pairCounts : List (PairKey × PairCounts)
  totalAttempts : Nat
  totalSuccesses : Nat
  totalErrors : Nat
  errorCounts : List (ErrorKind × Nat)
  sumElapsed : Nat
  maxElapsed : Nat
  minElapsed : Option Nat
deriving DecidableEq, Repr

/-- A fresh Analytics Collector at process start. -/
def emptyAnalytics (start : Nat) : Analytics :=
  { startTime := start
    pairCounts := []
    totalAttempts := 0
    totalSuccesses := 0
    totalErrors := 0
    errorCounts := []
    sumElapsed := 0
    maxElapsed := 0
    minElapsed := none }

/-- Increment one pair's counters with one outcome. -/
def PairCounts.bump (c : PairCounts) (succ : Bool) : PairCounts :=
  { attempts := c.attempts + 1
    successes := c.successes + (if succ then 1 else 0)
    errors := c.errors + (if succ then 0 else 1) }

/-- Update the per-pair counter table at one key. -/
def bumpPair (k : PairKey) (succ : Bool) :
    List (PairKey × PairCounts) → List (PairKey × PairCounts)
  | [] => [(k, PairCounts.bump ⟨0, 0, 0⟩ succ)]
  | (k', c) :: rest =>
    if k' = k then (k', c.bump succ) :: rest else (k', c) :: bumpPair k succ rest

/-- Update the error-kind frequency table at one kind. -/
def bumpError (e : ErrorKind) : List (ErrorKind × Nat) → List (ErrorKind × Nat)
  | [] => [(e, 1)]
  | (e', n) :: rest =>
    if e' = e then (e', n + 1) :: rest else (e', n) :: bumpError e rest

/-- Modelled from the spec: `Record(pair, outcome)` (spec 4.4): every
translation call, success or failure, is recorded exactly once; counters
are updated incrementally. -/
def Analytics.record (a : Analytics) (k : PairKey) (o : TranslationOutcome)
    (elapsed : Nat) : Analytics :=
  { startTime := a.startTime
    pairCounts := bumpPair k o.success a.pairCounts
    totalAttempts := a.totalAttempts + 1
    totalSuccesses := a.totalSuccesses + (if o.success then 1 else 0)
    totalErrors := a.totalErrors + (if o.success then 0 else 1)
    errorCounts :=
      match o.errorKind with
      | some e => bumpError e a.errorCounts
      | none => a.errorCounts
    sumElapsed := a.sumElapsed + elapsed
    maxElapsed := max a.maxElapsed elapsed
    minElapsed :=
      match a.minElapsed with
      | some m => some (min m elapsed)
      | none => some elapsed }

/-- Read one key's counters out of a per-pair table (zero when absent). -/
def lookupPC (k : PairKey) : List (PairKey × PairCounts) → PairCounts
  | [] => ⟨0, 0, 0⟩
  | kv :: rest => if kv.1 = k then kv.2 else lookupPC k rest

/-- Read one pair's counters out of the snapshot (zero when absent). -/
def Analytics.lookupPair (a : Analytics) (k : PairKey) : PairCounts :=
  lookupPC k a.pairCounts

/-- Read one error kind's frequency out of the snapshot. -/
def Analytics.countError (a : Analytics) (e : ErrorKind) : Nat :=
  match a.errorCounts.find? (fun kv => kv.1 = e) with
  | some kv => kv.2
  | none => 0

/-- Modelled from the spec: the snapshot's `success_rate`, a percentage
(spec 6; zero when nothing was attempted). -/
def Analytics.successRate (a : Analytics) : ℚ :=
  if a.totalAttempts = 0 then 0 else 100 * a.totalSuccesses / a.totalAttempts

/-- Modelled from the spec: the snapshot's `error_rate` percentage. -/
def Analytics.errorRate (a : Analytics) : ℚ :=
  if a.totalAttempts = 0 then 0 else 100 * a.totalErrors / a.totalAttempts

/-- All error kinds, in taxonomy order (spec 7). -/
def allErrorKinds : List ErrorKind :=
  [.MalformedInput, .UnsupportedMapping, .UnsupportedPair, .PayloadTooLarge]

/-- Modelled from the spec: `most_common_error` of the snapshot's error
analysis (spec 6): the error kind with the highest recorded frequency,
none when no error was recorded. -/
def Analytics.mostCommonError (a : Analytics) : Option ErrorKind :=
  if a.totalErrors = 0 then none
  else some (allErrorKinds.foldl
    (fun best e => if a.countError best < a.countError e then e else best)
    .MalformedInput)

/-- Modelled from the spec: the engine-side mutable state: the registry,
the Analytics Collector, and the id generator for canonical messages. -/
structure EngineState where
  registry : List Protocol
  analytics : Analytics
  nextId : Nat
deriving DecidableEq, Repr

/-- The engine state at process start. -/
def initialState (start : Nat) : EngineState :=
  { registry := defaultRegistry, analytics := emptyAnalytics start, nextId := 0 }

/-- Modelled from the spec: the body of `POST /translate` (spec 6). -/
structure TranslateRequest where
  fromProtocol : String
  toProtocol : String
  message : NativeMessage
deriving DecidableEq, Repr

/-- The wire name of each error kind. -/
def errorName : ErrorKind → String
  | .MalformedInput => "MalformedInput"
  | .UnsupportedMapping => "UnsupportedMapping"
  | .UnsupportedPair => "UnsupportedPair"
  | .PayloadTooLarge => "PayloadTooLarge"

/-- Modelled from the spec: the `POST /translate` response shape
`{success, message?, engine, error?}` (spec 6). -/
structure TranslateResponse where
  success : Bool
  message : Option CanonicalMessage
  engine : String
  error : Option String
deriving DecidableEq, Repr

/-- Modelled from the spec: one full engine translation call behind the API:
parse the requested protocol names (an unregistered name is an
`UnsupportedPair` failure, spec 7), run `translate`, and report the outcome
to the Analytics Collector exactly once under the requested pair
(spec 4.3). -/
def translateStep (st : EngineState) (now elapsed : Nat) (r : TranslateRequest) :
    TranslationOutcome × EngineState :=
  let outcome :=
    match parseProtocol r.fromProtocol, parseProtocol r.toProtocol with
    | some src, some tgt => translate st.registry src tgt r.message st.nextId now
    | _, _ => { success := false, resultMessage := none, errorKind := some .UnsupportedPair }
  (outcome,
    { registry := st.registry
      analytics := st.analytics.record (r.fromProtocol, r.toProtocol) outcome elapsed
      nextId := st.nextId + 1 })

/-- Build the HTTP-level response from an outcome. -/
def mkTranslateResponse (o : TranslationOutcome) : TranslateResponse :=
  { success := o.success
    message := o.resultMessage
    engine := "protocol-translation"
    error := o.errorKind.map errorName }

/-- Modelled from the spec: health status values (spec 4.5). -/
inductive HealthStatus
  | healthy
  | degraded
deriving DecidableEq, Repr

/-- Modelled from the spec: the `GET /translate/health` body
`{status, uptime, version, engines}` (spec 6). -/
structure HealthReport where
  status : HealthStatus
  uptime : Nat
  version : String
  engines : Nat
deriving DecidableEq, Repr

/-- Modelled from the spec: the Health/Status Reporter (spec 4.5): status is
degraded when the error rate since start exceeds the 50% threshold, healthy
otherwise; a pure function of the Analytics Collector and Registry state. -/
def healthReport (st : EngineState) (now : Nat) : HealthReport :=
  { status := if 50 < st.analytics.errorRate then .degraded else .healthy
    uptime := now - st.analytics.startTime
    version := "1.0.0"
    engines := st.registry.length }

/-- Modelled from the spec: the `GET /translate/analytics` summary body
(spec 6). -/
structure AnalyticsSummary where
  total_translations : Nat
  total_errors : Nat
  success_rate : ℚ
  active_engines : Nat
  active_protocols : Nat
  uptime : Nat
  error_rate : ℚ
  most_common_error : Option ErrorKind
deriving DecidableEq, Repr

/-- Serialize the current analytics state (spec 6). -/
def mkAnalyticsSummary (st : EngineState) (now : Nat) : AnalyticsSummary :=
  { total_translations := st.analytics.totalAttempts
    total_errors := st.analytics.totalErrors
    success_rate := st.analytics.successRate
    active_engines := st.registry.length
    active_protocols := st.registry.length
    uptime := now - st.analytics.startTime
    error_rate := st.analytics.errorRate
    most_common_error := st.analytics.mostCommonError }

/-- Modelled from the spec: the API surface's request alternatives
(spec 6). -/
inductive ApiRequest
  | translateReq (r : TranslateRequest)
  | analyticsReq
  | healthReq
deriving DecidableEq, Repr

/-- The API surface's response alternatives. -/
inductive ApiResponse
  | translateResp (r : TranslateResponse)
  | analyticsResp (s : AnalyticsSummary)
  | healthResp (h : HealthReport)
deriving DecidableEq, Repr

/-- Modelled from the spec: serving one API request (spec 6): translation
mutates analytics; analytics and health reads are side-effect free. -/
def serve (st : EngineState) (now elapsed : Nat) : ApiRequest → ApiResponse × EngineState
  | .translateReq r =>
    let p := translateStep st now elapsed r
    (.translateResp (mkTranslateResponse p.1), p.2)
  | .analyticsReq => (.analyticsResp (mkAnalyticsSummary st now), st)
  | .healthReq => (.healthResp (healthReport st now), st)

/-- Modelled from the spec: serving a whole request sequence; the process
keeps serving subsequent requests after any single translation failure
(spec 7). -/
def serveAll (st : EngineState) (now : Nat) : List ApiRequest → List ApiResponse × EngineState
  | [] => ([], st)
  | r :: rs =>
    let p := serve st now 0 r
    let q := serveAll p.2 (now + 1) rs
    (p.1 :: q.1, q.2)

/-! ## The Python test clients, embedded from their sources -/

/-- The observable result of one `requests` call made by the test clients:
either the library raised a `RequestException` (connection error, timeout,
too many redirects, HTTPError), or a final HTTP response arrived with a
status code and a parsed JSON body. The body type is abstract; only the
control flow matters here. -/
inductive TransportResult (β : Type)
  | exn
  | resp (status : Nat) (body : β)
deriving DecidableEq, Repr

/-- Embedded from `requests.Response.raise_for_status` as the clients use
it: it raises an `HTTPError` (a `RequestException`) exactly for the client
and server error statuses, `400 ≤ status < 600`; every other final status
(including 3xx responses such as 304, which `requests` does not follow)
passes through silently. -/
def raisesForStatus (status : Nat) : Bool :=
  decide (400 ≤ status) && decide (status < 600)

/-- Embedded from `ProtocolTranslationClient.translate_message`
(docs/api/translation/test_client.py lines 26-42); the four per-protocol
translate methods, `get_analytics` and `health_check` (lines 44-155) repeat
the same control flow: perform the request inside `try`, call
`raise_for_status`, return `response.json()`, and catch every
`RequestException` by printing and returning `None`. -/
def clientRequest {β : Type} : TransportResult β → Option β
  | .exn => none
  | .resp status body => if raisesForStatus status then none else some body

/-- Embedded from `os.path.basename` on POSIX paths: the part after the
last slash. -/
def os_path_basename (p : String) : String :=
  (p.splitOn "/").getLastD ""

/-- The filesystem visible to the upload example: the set of existing
paths. -/
abbrev FileSystem := List String

/-- The exception `upload_file` raises before any HTTP request. -/
inductive UploadError
  | fileNotFound (msg : String)
deriving DecidableEq, Repr

/-- The multipart upload request `upload_file` sends when it does not
raise: the target URL, the file name placed in the `files` part, and the
`key` form field. -/
structure UploadRequest where
  url : String
  fileName : String
  key : String
deriving DecidableEq, Repr

/-- Embedded from docs/examples/rest/basic/upload-file.py line 16. -/
def API_BASE_URL : String := "http://localhost:8080/api/v1"

/-- Embedded from `upload_file` (docs/examples/rest/basic/upload-file.py
lines 18-55): raise `FileNotFoundError` when the path does not exist,
before any HTTP request; default the key to `os.path.basename(file_path)`;
then POST the file to `API_BASE_URL + "/files"`. The value models the
request made (the response depends on the excluded server). -/
def upload_file (fs : FileSystem) (file_path : String) (key : Option String) :
    Except UploadError UploadRequest :=
  if file_path ∈ fs then
    let k := match key with
      | none => os_path_basename file_path
      | some k0 => k0
    .ok { url := API_BASE_URL ++ "/files"
          fileName := os_path_basename file_path
          key := k }
  else
    .error (.fileNotFound ("File not found: " ++ file_path))

/-- A Python scalar value as the MQTT test client serializes it. -/
inductive PyValue
  | pyStr (s : String)
  | pyInt (n : Int)
  | pyBool (b : Bool)
deriving DecidableEq, Repr

/-- The message argument of `publish_test_message`: a dict of scalar
entries, or any other value carried as its `str()` image. -/
inductive TestMessage
  | dict (entries : List (String × PyValue))
  | other (strImage : String)
deriving DecidableEq, Repr

/-- Embedded from `json.dumps` string escaping on the modelled scalar
domain (quote and backslash; control characters and non-ASCII are outside
the modelled domain). -/
def jsonEscape (s : String) : String :=
  String.join (s.toList.map (fun c =>
    if c = '"' then "\\\""
    else if c = '\\' then "\\\\"
    else String.singleton c))

/-- One scalar value as `json.dumps` renders it. -/
def pyValueJson : PyValue → String
  | .pyStr s => "\"" ++ jsonEscape s ++ "\""
  | .pyInt n => toString n
  | .pyBool true => "true"
  | .pyBool false => "false"

/-- Embedded from `json.dumps` on a flat dict with default separators. -/
def jsonDumps (es : List (String × PyValue)) : String :=
  "\x7b" ++ String.intercalate ", "
    (es.map (fun kv => "\"" ++ jsonEscape kv.1 ++ "\": " ++ pyValueJson kv.2))
    ++ "\x7d"

/-- Embedded from `publish_test_message` (docs/api/mqtt/test_client.py
lines 114-117): a dict is serialized with `json.dumps`, anything else with
`str`. -/
def serializeMessage : TestMessage → String
  | .dict es => jsonDumps es
  | .other s => s

/-- Embedded from `paho.mqtt.client.MQTT_ERR_SUCCESS`. -/
def MQTT_ERR_SUCCESS : Int := 0

/-- What one `publish_test_message` call did: its return value and the
publish it handed to the underlying client, if any. -/
structure PublishResult where
  returned : Bool
  published : Option (String × String)
deriving DecidableEq, Repr

/-- Embedded from `MQTTTestClient.publish_test_message`
(docs/api/mqtt/test_client.py lines 107-130): when not connected, print
and return `False` without publishing; otherwise serialize the message,
call `client.publish` (whose reported result code `rc` is an input here),
and return `True` exactly when `rc == MQTT_ERR_SUCCESS`. -/
def publish_test_message (connected : Bool) (rc : Int) (topic : String)
    (message : TestMessage) : PublishResult :=
  if connected then
    let payload := serializeMessage message
    { returned := rc = MQTT_ERR_SUCCESS, published := some (topic, payload) }
  else
    { returned := false, published := none }

/-- Is a metadata key namespaced with some registered protocol's prefix,
i.e. one of the whitelisted namespaced keys (spec 3)? -/
def isNamespacedKey (k : String) : Bool :=
  defaultRegistry.any (fun p => (protocolKeys p).contains k)

/-- Strip the generated `id` and the `timestamp` from a canonical message:
what remains is its content (spec 4.3's idempotence is stated modulo
these two fields). -/
def messageContent (m : CanonicalMessage) :
    Protocol × Protocol × MessageType × String × String × Metadata :=
  (m.sourceProtocol, m.targetProtocol, m.messageType, m.topic, m.payload, m.metadata)

/-- An outcome's content: the success flag, the result message's content,
and the error kind. -/
def outcomeContent (o : TranslationOutcome) :
    Bool × Option (Protocol × Protocol × MessageType × String × String × Metadata)
      × Option ErrorKind :=
  (o.success, o.resultMessage.map messageContent, o.errorKind)

/-- Record a whole outcome sequence on one pair (elapsed time fixed at
zero; the counters under scrutiny ignore it). -/
def recordAll (a : Analytics) (k : PairKey) (os : List TranslationOutcome) : Analytics :=
  os.foldl (fun acc o => acc.record k o 0) a

/-! ## Helper lemmas -/

theorem mem_defaultRegistry (p : Protocol) : p ∈ defaultRegistry := by
  cases p <;> simp [defaultRegistry]

theorem lookupMeta_filter_none (q : String × MetaValue → Bool) (k : String) :
    ∀ md : Metadata, lookupMeta md k = none → lookupMeta (md.filter q) k = none := by
  intro md
  induction md with
  | nil => intro _; rfl
  | cons hd tl ih =>
    intro h
    by_cases hk : hd.1 = k
    · simp [lookupMeta, hk] at h
    · simp only [lookupMeta, hk, if_false] at h
      simp only [List.filter]
      cases q hd with
      | true => simpa [lookupMeta, hk] using ih h
      | false => exact ih h

theorem mem_encodeMeta_of_default (tgt : Protocol) (md : Metadata)
    (kv : String × MetaValue) (h1 : kv ∈ encodeDefaults tgt)
    (h2 : lookupMeta md kv.1 = none) : kv ∈ encodeMeta tgt md := by
  unfold encodeMeta
  refine List.mem_append_right _ (List.mem_filter.2 ⟨h1, ?_⟩)
  simp [h2]

theorem default_key_mem (tgt : Protocol) (kv : String × MetaValue)
    (h : kv ∈ encodeDefaults tgt) : kv.1 ∈ protocolKeys tgt := by
  cases tgt <;>
    simp only [encodeDefaults, List.mem_cons, List.not_mem_nil, or_false] at h
  · rcases h with rfl | rfl <;> decide
  · rcases h with rfl | rfl <;> decide
  · subst h; decide
  · rcases h with rfl | rfl <;> decide

theorem key_namespaced (tgt : Protocol) (k : String)
    (h : k ∈ protocolKeys tgt) : isNamespacedKey k = true := by
  cases tgt <;>
    simp only [protocolKeys, List.mem_cons, List.not_mem_nil, or_false] at h
  · rcases h with rfl | rfl <;> decide
  · rcases h with rfl | rfl <;> decide
  · rcases h with rfl | rfl <;> decide
  · rcases h with rfl | rfl | rfl <;> decide

theorem encodeMeta_key_mem (tgt : Protocol) (md : Metadata)
    (kv : String × MetaValue) (h : kv ∈ encodeMeta tgt md) :
    kv.1 ∈ protocolKeys tgt := by
  unfold encodeMeta at h
  rcases List.mem_append.1 h with h | h
  · have hc := (List.mem_filter.1 h).2
    simpa using hc
  · exact default_key_mem tgt kv (List.mem_filter.1 h).1

/-! ## Claim theorems -/

/-- The spec's section 8 example message for C1: topic
"sensors/temperature", type "text", payload "23.5C", no metadata given. -/
def exampleWsMessage : NativeMessage :=
  { topic := some "sensors/temperature", payload := some "23.5C", metadata := [] }

/-- C1 (amended): for every ordered pair (source, target) with source ≠
target, Translate on a well-formed native message (topic and payload
present, payload within bound) returns success with a resultMessage whose
topic and payload equal the input's, and whose metadata contains the
target protocol's defaults for every default field absent from the input's
metadata; in particular (see the witness) translating the websocket→mqtt
example yields success with the namespaced defaults `mqtt_qos = 1` and
`mqtt_retain = false`. -/
theorem C1_translate_preserves (src tgt : Protocol) (nm : NativeMessage)
    (t pl : String) (i ts : Nat) (hne : src ≠ tgt) (ht : nm.topic = some t)
    (hp : nm.payload = some pl) (hlen : pl.length ≤ maxPayload) :
    ∃ m : CanonicalMessage,
      translate defaultRegistry src tgt nm i ts =
        { success := true, resultMessage := some m, errorKind := none } ∧
      m.topic = t ∧ m.payload = pl ∧
      ∀ kv ∈ encodeDefaults tgt,
        lookupMeta nm.metadata kv.1 = none → kv ∈ m.metadata := by
  have hcond : ¬(src = tgt ∨ ¬ src ∈ defaultRegistry ∨ ¬ tgt ∈ defaultRegistry) := by
    simp [hne, mem_defaultRegistry]
  rw [translate, if_neg hcond]
  simp only [decode, ht, hp]
  rw [if_neg (not_lt.2 hlen)]
  refine ⟨_, rfl, rfl, rfl, ?_⟩
  intro kv hkv hnone
  exact mem_encodeMeta_of_default tgt _ kv hkv
    (lookupMeta_filter_none _ kv.1 nm.metadata hnone)

/-- C1, witness: the amended claim applied to the spec's own example:
websocket→mqtt on topic "sensors/temperature", payload "23.5C". -/
theorem C1_translate_preserves_witness :
    ∃ m : CanonicalMessage,
      translate defaultRegistry .websocket .mqtt exampleWsMessage 0 0 =
        { success := true, resultMessage := some m, errorKind := none } ∧
      m.topic = "sensors/temperature" ∧ m.payload = "23.5C" ∧
      ∀ kv ∈ encodeDefaults .mqtt,
        lookupMeta exampleWsMessage.metadata kv.1 = none → kv ∈ m.metadata :=
  C1_translate_preserves .websocket .mqtt exampleWsMessage
    "sensors/temperature" "23.5C" 0 0 (by decide) rfl rfl (by decide)

/-- C1, counterexample: at the spec's own example input the successful
result's metadata carries the namespaced keys of the data model (spec 3),
not the bare `qos`/`retain` the claim names: looking up "qos" or "retain"
in the result yields nothing, while "mqtt_qos" is 1 and "mqtt_retain" is
false. -/
theorem C1_counterexample :
    ∃ m : CanonicalMessage,
      translate defaultRegistry .websocket .mqtt exampleWsMessage 0 0 =
        { success := true, resultMessage := some m, errorKind := none } ∧
      lookupMeta m.metadata "qos" = none ∧
      lookupMeta m.metadata "retain" = none ∧
      lookupMeta m.metadata "mqtt_qos" = some (.n 1) ∧
      lookupMeta m.metadata "mqtt_retain" = some (.b false) := by
  refine ⟨{ id := 0, sourceProtocol := .websocket, targetProtocol := .mqtt,
            messageType := .text, topic := "sensors/temperature",
            payload := "23.5C",
            metadata := [("mqtt_qos", .n 1), ("mqtt_retain", .b false)],
            timestamp := 0 }, ?_, rfl, rfl, rfl, rfl⟩
  rfl

/-- C2: for every registry, every protocol p and every native message,
`Translate` on the same-protocol pair (p, p) fails with `UnsupportedPair`;
the outcome is always this failure value, never a success, and the
function is total, so nothing escapes the Translate boundary. -/
theorem C2_same_protocol_fails (reg : List Protocol) (p : Protocol)
    (nm : NativeMessage) (i ts : Nat) :
    translate reg p p nm i ts =
      { success := false, resultMessage := none, errorKind := some .UnsupportedPair } := by
  simp [translate]

/-- The websocket→mqtt request body the translation test client sends
(docs/api/translation/test_client.py lines 44-56): topic
"sensors/temperature", the message text as payload, and metadata carrying
the bare, un-namespaced keys `qos = 1` and `retain = False`. -/
def clientWsToMqttMessage : NativeMessage :=
  { topic := some "sensors/temperature", payload := some "23.5C",
    metadata := [("qos", .n 1), ("retain", .b false)] }

/-- C3 (amended): every key in the metadata of every resultMessage the
engine returns is one of the target protocol's namespaced whitelisted keys
(mqtt_qos, mqtt_retain, coap_method, sse_event, websocket_opcode, ...);
accepted input messages, however, may carry un-namespaced protocol-specific
keys (the test client's websocket→mqtt request carries bare `qos` and
`retain`), which the adapters drop rather than reject. -/
theorem C3_result_metadata_namespaced (reg : List Protocol) (src tgt : Protocol)
    (nm : NativeMessage) (i ts : Nat) (m : CanonicalMessage)
    (hm : (translate reg src tgt nm i ts).resultMessage = some m) :
    ∀ kv, kv ∈ m.metadata → kv.1 ∈ protocolKeys tgt ∧ isNamespacedKey kv.1 = true := by
  intro kv hkv
  unfold translate at hm
  split at hm
  · exact Option.noConfusion hm
  · split at hm
    · exact Option.noConfusion hm
    · split at hm
      · exact Option.noConfusion hm
      · have hmeq := Option.some.inj hm
        subst hmeq
        exact ⟨encodeMeta_key_mem tgt _ kv hkv,
          key_namespaced tgt kv.1 (encodeMeta_key_mem tgt _ kv hkv)⟩

/-- C3, witness: the amended claim applied at the example translation's
concrete result. -/
theorem C3_result_metadata_namespaced_witness :
    ("mqtt_qos" : String) ∈ protocolKeys .mqtt ∧ isNamespacedKey "mqtt_qos" = true :=
  C3_result_metadata_namespaced defaultRegistry .websocket .mqtt exampleWsMessage 0 0
    { id := 0, sourceProtocol := .websocket, targetProtocol := .mqtt,
      messageType := .text, topic := "sensors/temperature", payload := "23.5C",
      metadata := [("mqtt_qos", .n 1), ("mqtt_retain", .b false)], timestamp := 0 }
    rfl ("mqtt_qos", .n 1) (by decide)

/-- C3, counterexample: the claim as stated fails on the messages the
system accepts: the test client's own websocket→mqtt request is accepted
(translation succeeds on it) yet its metadata carries the bare,
un-namespaced protocol-specific keys `qos` and `retain`. -/
theorem C3_counterexample :
    (translate defaultRegistry .websocket .mqtt clientWsToMqttMessage 0 0).success = true ∧
    ("qos", MetaValue.n 1) ∈ clientWsToMqttMessage.metadata ∧
    ("retain", MetaValue.b false) ∈ clientWsToMqttMessage.metadata ∧
    isNamespacedKey "qos" = false ∧ isNamespacedKey "retain" = false := by
  refine ⟨rfl, by decide, by decide, by decide, by decide⟩

theorem lookupPC_bumpPair (k : PairKey) (succ : Bool) :
    ∀ l, lookupPC k (bumpPair k succ l) = (lookupPC k l).bump succ := by
  intro l
  induction l with
  | nil => simp [bumpPair, lookupPC]
  | cons hd tl ih =>
    by_cases h : hd.1 = k
    · rcases hd with ⟨k', c⟩
      simp only at h
      subst h
      simp [bumpPair, lookupPC]
    · rcases hd with ⟨k', c⟩
      simp only at h
      simp only [bumpPair, lookupPC, h, if_neg, if_false]
      exact ih

theorem lookupPair_record (a : Analytics) (k : PairKey) (o : TranslationOutcome)
    (e : Nat) : (a.record k o e).lookupPair k = (a.lookupPair k).bump o.success := by
  unfold Analytics.record Analytics.lookupPair
  exact lookupPC_bumpPair k o.success a.pairCounts

theorem translate_content_const (reg : List Protocol) (src tgt : Protocol)
    (nm : NativeMessage) (i₁ n₁ i₂ n₂ : Nat) :
    outcomeContent (translate reg src tgt nm i₁ n₁) =
      outcomeContent (translate reg src tgt nm i₂ n₂) := by
  unfold translate
  split
  · rfl
  · rcases hdec : decode src nm with e | d
    · simp only [hdec]
    · simp only [hdec]
      split <;> rfl

theorem translateStep_content (st₁ st₂ : EngineState) (n₁ e₁ n₂ e₂ : Nat)
    (r : TranslateRequest) (hreg : st₁.registry = st₂.registry) :
    outcomeContent (translateStep st₁ n₁ e₁ r).1 =
      outcomeContent (translateStep st₂ n₂ e₂ r).1 := by
  unfold translateStep
  cases h1 : parseProtocol r.fromProtocol <;> cases h2 : parseProtocol r.toProtocol
  · rfl
  · rfl
  · rfl
  · rw [hreg]; exact translate_content_const _ _ _ _ _ _ _ _

/-- C4: translating the same native payload and pair twice yields outcomes
with identical success flag, result-message content (modulo the generated
id and the timestamp) and error kind, while each call independently bumps
the analytics counters — the first call takes the global attempt count and
the pair's attempt count from their old values to +1, the second to +2, so
no memoization collapses the second call. -/
theorem C4_translate_idempotent (st : EngineState) (n₁ e₁ n₂ e₂ : Nat)
    (r : TranslateRequest) :
    outcomeContent (translateStep st n₁ e₁ r).1 =
      outcomeContent (translateStep (translateStep st n₁ e₁ r).2 n₂ e₂ r).1 ∧
    ((translateStep st n₁ e₁ r).2).analytics.totalAttempts =
      st.analytics.totalAttempts + 1 ∧
    ((translateStep (translateStep st n₁ e₁ r).2 n₂ e₂ r).2).analytics.totalAttempts =
      st.analytics.totalAttempts + 2 ∧
    (((translateStep st n₁ e₁ r).2).analytics.lookupPair
        (r.fromProtocol, r.toProtocol)).attempts =
      (st.analytics.lookupPair (r.fromProtocol, r.toProtocol)).attempts + 1 ∧
    (((translateStep (translateStep st n₁ e₁ r).2 n₂ e₂ r).2).analytics.lookupPair
        (r.fromProtocol, r.toProtocol)).attempts =
      (st.analytics.lookupPair (r.fromProtocol, r.toProtocol)).attempts + 2 := by
  have hstep : ∀ (st' : EngineState) (n e : Nat),
      ((translateStep st' n e r).2.analytics.lookupPair
          (r.fromProtocol, r.toProtocol)).attempts =
        (st'.analytics.lookupPair (r.fromProtocol, r.toProtocol)).attempts + 1 := by
    intro st' n e
    show ((st'.analytics.record (r.fromProtocol, r.toProtocol) _ e).lookupPair
      (r.fromProtocol, r.toProtocol)).attempts = _
    rw [lookupPair_record]
    rfl
  refine ⟨translateStep_content st _ n₁ e₁ n₂ e₂ r rfl, rfl, rfl, hstep st n₁ e₁, ?_⟩
  rw [hstep _ n₂ e₂, hstep st n₁ e₁]

theorem serveAll_length (st : EngineState) (now : Nat) (reqs : List ApiRequest) :
    ((serveAll st now reqs).1).length = reqs.length := by
  induction reqs generalizing st now with
  | nil => rfl
  | cons r rs ih => simp [serveAll, ih]

/-- C5: a translate request naming the unregistered target protocol
"unsupported_protocol" fails with error kind `UnsupportedPair`: the
HTTP-level response carries success = false and the error field set to
that kind's name — and the process keeps serving: a request sequence
beginning with the failing request still produces exactly one response
per request. -/
theorem C5_unregistered_target (st : EngineState) (now e : Nat)
    (fromP : String) (nm : NativeMessage) (rest : List ApiRequest) :
    (serve st now e (.translateReq ⟨fromP, "unsupported_protocol", nm⟩)).1 =
      .translateResp { success := false, message := none,
                       engine := "protocol-translation",
                       error := some "UnsupportedPair" } ∧
    ((serveAll st now
        (.translateReq ⟨fromP, "unsupported_protocol", nm⟩ :: rest)).1).length =
      rest.length + 1 := by
  constructor
  · have hparse : parseProtocol "unsupported_protocol" = none := rfl
    simp only [serve, translateStep]
    cases h : parseProtocol fromP <;> simp [h, hparse, mkTranslateResponse, errorName]
  · rw [serveAll_length]
    simp

/-- A well-formed websocket→mqtt request for the C6 scenario. -/
def okRequest : TranslateRequest :=
  { fromProtocol := "websocket", toProtocol := "mqtt",
    message := { topic := some "sensors/temperature",
                 payload := some "23.5C", metadata := [] } }

/-- A malformed websocket→mqtt request for the C6 scenario: the required
topic field is missing, so its decode fails with `MalformedInput`. -/
def badRequest : TranslateRequest :=
  { fromProtocol := "websocket", toProtocol := "mqtt",
    message := { topic := none, payload := some "23.5C", metadata := [] } }

/-- The C6 scenario: 10 translations, 7 well-formed and 3 malformed. -/
def tenRequests : List ApiRequest :=
  List.replicate 7 (.translateReq okRequest)
    ++ List.replicate 3 (.translateReq badRequest)

/-- C6: recording N successes and M failures on a pair adds exactly
(N+M, N, M) to that pair's (attempts, successes, errors) counters — stated
for any starting state and any interleaving of the outcomes; and in the
concrete scenario of 10 translations from a fresh analytics state, 7
successful and 3 failing with `MalformedInput`, the pair's counters read
(10, 7, 3), the snapshot's success_rate is exactly 70 and its
most_common_error is `MalformedInput`. -/
theorem C6_analytics_counts :
    (∀ (a : Analytics) (k : PairKey) (os : List TranslationOutcome),
      ((recordAll a k os).lookupPair k).attempts
          = (a.lookupPair k).attempts + os.length ∧
      ((recordAll a k os).lookupPair k).successes
          = (a.lookupPair k).successes + os.countP (fun o => o.success) ∧
      ((recordAll a k os).lookupPair k).errors
          = (a.lookupPair k).errors + os.countP (fun o => !o.success)) ∧
    (serveAll (initialState 0) 0 tenRequests).2.analytics.lookupPair
        ("websocket", "mqtt") = ⟨10, 7, 3⟩ ∧
    (serveAll (initialState 0) 0 tenRequests).2.analytics.successRate = 70 ∧
    (serveAll (initialState 0) 0 tenRequests).2.analytics.mostCommonError =
      some .MalformedInput := by
  refine ⟨?_, by decide, ?_, by decide⟩
  case refine_2 =>
    have hs : (serveAll (initialState 0) 0 tenRequests).2.analytics.totalSuccesses = 7 := by
      decide
    have ha : (serveAll (initialState 0) 0 tenRequests).2.analytics.totalAttempts = 10 := by
      decide
    unfold Analytics.successRate
    rw [hs, ha]
    norm_num
  intro a k os
  induction os generalizing a with
  | nil => simp [recordAll]
  | cons o rest ih =>
    have hrec : recordAll a k (o :: rest) = recordAll (a.record k o 0) k rest := rfl
    rw [hrec]
    rcases ih (a.record k o 0) with ⟨h1, h2, h3⟩
    rw [h1, h2, h3, lookupPair_record]
    cases hsucc : o.success <;>
      simp [PairCounts.bump, hsucc, List.countP_cons] <;> omega

/-- C7: GET /translate/health returns the health report — an object of
exactly the four fields status, uptime, version, engines (the HealthReport
structure, as the structure-eta conjunct spells out) — whose status is
always healthy or degraded; and serving it is a pure read of the analytics
and registry state: the engine state comes back unchanged. -/
theorem C7_health_report (st : EngineState) (now e : Nat) :
    serve st now e .healthReq = (.healthResp (healthReport st now), st) ∧
    ((healthReport st now).status = .healthy ∨
      (healthReport st now).status = .degraded) ∧
    healthReport st now =
      { status := (healthReport st now).status,
        uptime := now - st.analytics.startTime,
        version := "1.0.0",
        engines := st.registry.length } := by
  refine ⟨rfl, ?_, rfl⟩
  by_cases h : (50 : ℚ) < st.analytics.errorRate
  · right; simp [healthReport, h]
  · left; simp [healthReport, h]

/-- C8 (amended): every request method of ProtocolTranslationClient
returns None — never propagating an exception — exactly when the
underlying call raises a RequestException or the final status is one
`raise_for_status` raises on (400 ≤ status < 600), and otherwise returns
the parsed JSON body; a final non-2xx status outside 400–599 (such as
304) is returned as a parsed body, not turned into None. -/
theorem C8_client_request (β : Type) (r : TransportResult β) :
    (clientRequest r = none ↔
      r = .exn ∨ ∃ s b, r = .resp s b ∧ 400 ≤ s ∧ s < 600) ∧
    (∀ s b, r = .resp s b → ¬(400 ≤ s ∧ s < 600) → clientRequest r = some b) := by
  cases r with
  | exn => simp [clientRequest]
  | resp s b =>
    by_cases h4 : 400 ≤ s
    · by_cases h6 : s < 600
      · simp [clientRequest, raisesForStatus, h4, h6]
      · simp [clientRequest, raisesForStatus, h4, h6]
    · simp [clientRequest, raisesForStatus, h4]

/-- C8, counterexample: the claim as stated fails at a final 304 status:
304 is not a 2xx status, yet the client method returns the parsed body
(`raise_for_status` raises only for 400–599), not None. -/
theorem C8_counterexample :
    clientRequest (TransportResult.resp 304 "body") = some "body" ∧
    ¬(200 ≤ 304 ∧ 304 < 300) := by
  exact ⟨rfl, by decide⟩

/-- C9: upload_file raises FileNotFoundError — before any HTTP request is
made: the error branch constructs no request — exactly when the path does
not exist; and with key=None an existing file is uploaded to
API_BASE_URL ++ "/files" under the key os.path.basename(file_path). -/
theorem C9_upload_file (fs : FileSystem) (p : String) (k : Option String) :
    (upload_file fs p k = .error (.fileNotFound ("File not found: " ++ p)) ↔
      ¬ p ∈ fs) ∧
    (p ∈ fs → upload_file fs p none =
      .ok { url := API_BASE_URL ++ "/files",
            fileName := os_path_basename p, key := os_path_basename p }) := by
  constructor
  · by_cases h : p ∈ fs <;> simp [upload_file, h]
  · intro h; simp [upload_file, h]

/-- C9, witness: the claim at the example's own input: a filesystem
holding sample.txt, uploaded with key=None. -/
theorem C9_upload_file_witness :
    (upload_file ["sample.txt"] "sample.txt" none =
        .error (.fileNotFound ("File not found: " ++ "sample.txt")) ↔
      ¬ "sample.txt" ∈ (["sample.txt"] : FileSystem)) ∧
    ("sample.txt" ∈ (["sample.txt"] : FileSystem) →
      upload_file ["sample.txt"] "sample.txt" none =
        .ok { url := API_BASE_URL ++ "/files",
              fileName := os_path_basename "sample.txt",
              key := os_path_basename "sample.txt" }) :=
  C9_upload_file ["sample.txt"] "sample.txt" none

/-- C10: publish_test_message returns False and publishes nothing when
the client is not connected to the broker; when connected it publishes a
dict message as its json.dumps serialization and any other message as its
str() form, and returns True exactly when the underlying publish reports
MQTT_ERR_SUCCESS. -/
theorem C10_publish_test_message (rc : Int) (topic : String) (msg : TestMessage) :
    publish_test_message false rc topic msg =
      { returned := false, published := none } ∧
    (publish_test_message true rc topic msg).published =
      some (topic, serializeMessage msg) ∧
    ((publish_test_message true rc topic msg).returned = true ↔
      rc = MQTT_ERR_SUCCESS) ∧
    (∀ es, serializeMessage (.dict es) = jsonDumps es) ∧
    (∀ s, serializeMessage (.other s) = s) := by
  refine ⟨rfl, rfl, ?_, fun es => rfl, fun s => rfl⟩
  simp [publish_test_message]

end PeerVault
